import Mathlib

/-!
# Verification of the vMix replay-bridge server

A shallow embedding of the Express bridge server (`server.js`, the newer
variant in the repository) into Lean 4.  Device interaction (`vmixCall`)
is modelled as a trace of structured calls; each handler and command-layer
function is translated into a pure function producing its response together
with the list of device calls it issues, in order.

The replay-completion watcher and the status parser described in the design
document are not present in the server sources; they are modelled from the
spec where a claim needs them (definitions marked `Modelled from the spec:`).
-/

namespace VmixBridge

/-- Runtime configuration of the bridge, mirroring the env-derived constants
`HIGHLIGHTS_LIST`, `DUPLICATE_HIGHLIGHTS_LIST`, `REEL_PLAY_LIST`, `CAM_A`,
`CAM_B` of the source. -/
structure Cfg where
  highlightsList : Nat
  duplicateHighlightsList : Nat
  reelPlayList : Nat
  camA : Nat
  camB : Nat
deriving DecidableEq, Repr

/-- The defaults from the source: lists 1 and 2, reel list 2, cameras 1 and 2. -/
def defaultCfg : Cfg := ⟨1, 2, 2, 1, 2⟩

/-- `DUPLICATE_TAGS` — the fixed set of high-value tags that get duplicated
to the secondary highlights list. -/
def DUPLICATE_TAGS : List String := ["SCORE", "GOAL", "BIG PLAY", "TD", "3PT", "DUNK"]

/-- One device call, i.e. one invocation of `vmixCall(Function, params)`.
Each constructor records the vMix `Function` name it stands for together
with the parameters the source passes. -/
inductive Call where
  /-- `vmixCall("ReplaySelectEvents" + list, \x7b Channel \x7d)` -/
  | replaySelectEvents (list : Nat) (channel : String)
  /-- `vmixCall("ReplayMarkInOut", \x7b Value: seconds \x7d)` -/
  | replayMarkInOut (seconds : ℚ)
  /-- `vmixCall("ReplayLastEventCameraOn", \x7b Value \x7d)` -/
  | replayLastEventCameraOn (value : Nat)
  /-- `vmixCall("ReplayLastEventCameraOff", \x7b Value \x7d)` -/
  | replayLastEventCameraOff (value : Nat)
  /-- `vmixCall("ReplaySetLastEventText", \x7b Value \x7d)` -/
  | replaySetLastEventText (value : String)
  /-- `vmixCall("ReplayPlayAllEventsToOutput", \x7b Channel \x7d)` -/
  | replayPlayAllEventsToOutput (channel : String)
  /-- `vmixCall("ReplayStop", \x7b Channel \x7d)` -/
  | replayStop (channel : String)
deriving DecidableEq, Repr

/-- `setLastEventCameras(\x7b aOn, bOn \x7d)`: camera A on when `aOn`; camera B
toggled on or off according to `bOn`. -/
def setLastEventCameras (camA camB : Nat) (aOn bOn : Bool) : List Call :=
  (if aOn then [Call.replayLastEventCameraOn camA] else [])
    ++ (if bOn then [Call.replayLastEventCameraOn camB]
        else [Call.replayLastEventCameraOff camB])

/-- `markHighlight(\x7b seconds, side, tag, camsMode, camBEnabled \x7d)`: the
ordered device-call trace of the command.  Mirrors the source: select the
primary list, mark in/out, apply the camera rule, set the label; then, unless
the tag is not high-value or the duplicate list coincides with the primary,
repeat against the duplicate list and finally re-select the primary list and
re-apply the label. -/
def markHighlightCalls (cfg : Cfg) (seconds : ℚ) (side tag camsMode : String)
    (camBEnabled : Bool) : List Call :=
  let bOn := (camsMode == "A_BOTH") && camBEnabled
  let label := side ++ " • " ++ tag
  let base :=
    [Call.replaySelectEvents cfg.highlightsList "A",
     Call.replayMarkInOut seconds]
    ++ setLastEventCameras cfg.camA cfg.camB true bOn
    ++ [Call.replaySetLastEventText label]
  if !(DUPLICATE_TAGS.contains tag) || (cfg.duplicateHighlightsList == cfg.highlightsList) then
    base
  else
    base
    ++ [Call.replaySelectEvents cfg.duplicateHighlightsList "A",
        Call.replayMarkInOut seconds]
    ++ setLastEventCameras cfg.camA cfg.camB true bOn
    ++ [Call.replaySetLastEventText label,
        Call.replaySelectEvents cfg.highlightsList "A",
        Call.replaySetLastEventText label]

/-- A JavaScript request-body value, as far as the handlers inspect one:
a string, a number, a boolean, `undefined` (absent field), or anything
else (object, array, null — the handlers only ever reject these). -/
inductive JVal where
  | str (s : String)
  | num (q : ℚ)
  | bool (b : Bool)
  | undef
  | other
deriving DecidableEq, Repr

/-- Strip leading and trailing whitespace from a character list. -/
def trimChars (l : List Char) : List Char :=
  (((l.dropWhile Char.isWhitespace).reverse).dropWhile Char.isWhitespace).reverse

/-- JavaScript `String.prototype.trim` (whitespace in the sense of
`Char.isWhitespace`). -/
def jsTrim (s : String) : String :=
  ⟨trimChars s.data⟩

/-- Value of a run of decimal digits. -/
def digitsVal (l : List Char) : Nat :=
  l.foldl (fun a c => a * 10 + (c.toNat - 48)) 0

/-- Parse an unsigned decimal literal (`"123"`, `"123.45"`, `".5"`, `"5."`),
the digit/fraction part of JavaScript number syntax. -/
def parseDecimal (l : List Char) : Option ℚ :=
  let intD := l.takeWhile (· ≠ '.')
  let rest := l.dropWhile (· ≠ '.')
  match rest with
  | [] =>
    if intD ≠ [] ∧ intD.all Char.isDigit then some ((digitsVal intD : ℕ) : ℚ) else none
  | _ :: fracD =>
    if fracD.all Char.isDigit ∧ intD.all Char.isDigit ∧ (intD ≠ [] ∨ fracD ≠ []) ∧
        ¬ fracD.contains '.' then
      some (((digitsVal intD : ℕ) : ℚ) + ((digitsVal fracD : ℕ) : ℚ) / ((10 : ℚ) ^ fracD.length))
    else none

/-- JavaScript `Number(string)` restricted to plain decimal literals:
whitespace-trimmed, empty string is `0`, optional sign, decimal digits with
an optional fraction; anything else (and the exotic forms the handlers never
meet) is NaN, modelled as `none`. -/
def jsParseNumber (s : String) : Option ℚ :=
  let t := jsTrim s
  if t = "" then some 0
  else
    match t.data with
    | '-' :: r => (parseDecimal r).map (fun q => -q)
    | '+' :: r => parseDecimal r
    | r => parseDecimal r

/-- JavaScript `Number(v)` on a body value; `none` models NaN. -/
def jsToNumber : JVal → Option ℚ
  | JVal.str s => jsParseNumber s
  | JVal.num q => some q
  | JVal.bool b => some (if b then 1 else 0)
  | JVal.undef => none
  | JVal.other => none

/-- The string payload of a value (only read after a string type-check). -/
def jsStr : JVal → String
  | JVal.str s => s
  | _ => ""

/-- The boolean payload of a value (only read after a boolean type-check). -/
def jsBool : JVal → Bool
  | JVal.bool b => b
  | _ => false

/-- The body of a `POST /api/highlight` request, as destructured by the
handler: `\x7b seconds, side, tag, camsMode, camBEnabled \x7d = req.body`. -/
structure HighlightBody where
  seconds : JVal
  side : JVal
  tag : JVal
  camsMode : JVal
  camBEnabled : JVal
deriving DecidableEq, Repr

/-- The destructuring default `camBEnabled = true`: it applies exactly when
the field is `undefined`. -/
def camBDefaulted (v : JVal) : JVal :=
  match v with
  | JVal.undef => JVal.bool true
  | v => v

/-- `[5, 7, 10].includes(Number(seconds))`. -/
def secondsValid (v : JVal) : Bool :=
  match jsToNumber v with
  | some q => if q = 5 ∨ q = 7 ∨ q = 10 then true else false
  | none => false

/-- `["H", "A"].includes(side)` (strict equality: only those two strings). -/
def sideValid : JVal → Bool
  | JVal.str s => s == "H" || s == "A"
  | _ => false

/-- `typeof tag === "string" && tag.trim()` is truthy. -/
def tagValid : JVal → Bool
  | JVal.str s => !(jsTrim s == "")
  | _ => false

/-- `["A_ONLY", "A_BOTH"].includes(camsMode)`. -/
def camsModeValid : JVal → Bool
  | JVal.str s => s == "A_ONLY" || s == "A_BOTH"
  | _ => false

/-- `typeof camBEnabled === "boolean"`. -/
def camBEnabledValid : JVal → Bool
  | JVal.bool _ => true
  | _ => false

/-- A handler response: success envelope or a 400 rejection with its message. -/
inductive HResp where
  | ok
  | badRequest (msg : String)
deriving DecidableEq, Repr

/-- Whether a response is the success envelope. -/
def HResp.isOk : HResp → Bool
  | HResp.ok => true
  | HResp.badRequest _ => false

/-- The `POST /api/highlight` handler: validation checks in source order,
then `markHighlight` with `Number(seconds)`, `side`, `tag.trim()`,
`camsMode`, `camBEnabled`.  The result pairs the response with the trace of
device calls issued. -/
def highlightHandler (cfg : Cfg) (b : HighlightBody) : HResp × List Call :=
  let camBEnabled := camBDefaulted b.camBEnabled
  if !(secondsValid b.seconds) then
    (HResp.badRequest "seconds must be 5, 7, or 10", [])
  else if !(sideValid b.side) then
    (HResp.badRequest "side must be \"H\" or \"A\"", [])
  else if !(tagValid b.tag) then
    (HResp.badRequest "tag is required", [])
  else if !(camsModeValid b.camsMode) then
    (HResp.badRequest "camsMode must be \"A_ONLY\" or \"A_BOTH\"", [])
  else if !(camBEnabledValid camBEnabled) then
    (HResp.badRequest "camBEnabled must be a boolean", [])
  else
    (HResp.ok,
     markHighlightCalls cfg ((jsToNumber b.seconds).getD 0) (jsStr b.side)
       (jsTrim (jsStr b.tag)) (jsStr b.camsMode) (jsBool camBEnabled))

/-- `normalizeHost(host)`: trim when a string, otherwise `""`. -/
def normalizeHost : JVal → String
  | JVal.str s => jsTrim s
  | _ => ""

/-- The JSON envelope sent by the config-update handler. -/
structure ConfigResp where
  status : Nat
  ok : Bool
  error : Option String
  vmixHost : Option String
deriving DecidableEq, Repr

/-- The `POST /api/config/vmix` handler.  `write` is the outcome of
`saveVmixHostConfig` (`Except.error msg` models a thrown exception whose
`message` is `msg`).  Returns the new in-memory `vmixHost` together with the
response: empty normalized host gives a 400 without touching anything; a
write failure is caught and answered with 500, leaving `vmixHost` unchanged;
otherwise `vmixHost` is assigned after the write. -/
def configVmixHandler (curHost : String) (body : JVal) (write : Except String Unit) :
    String × ConfigResp :=
  let requested := normalizeHost body
  if requested = "" then
    (curHost, ⟨400, false, some "vmixHost is required", none⟩)
  else
    match write with
    | Except.ok _ => (requested, ⟨200, true, none, some requested⟩)
    | Except.error msg => (curHost, ⟨500, false, some msg, none⟩)

/-- An effect a reel handler might perform.  The source handlers only issue
device calls; the watcher-related constructors exist so that the design
document's watcher start/cancel steps are expressible as effects. -/
inductive ReelEff where
  | device (c : Call)
  | startWatcher
  | cancelWatcher
deriving DecidableEq, Repr

/-- The `POST /api/reel/play` handler: select the reel list on channel A,
then play all events to output on channel B. -/
def playReelEffs (cfg : Cfg) : List ReelEff :=
  [ReelEff.device (Call.replaySelectEvents cfg.reelPlayList "A"),
   ReelEff.device (Call.replayPlayAllEventsToOutput "B")]

/-- The `POST /api/reel/stop` handler: one `ReplayStop` call on channel B. -/
def stopReelEffs : List ReelEff :=
  [ReelEff.device (Call.replayStop "B")]

/-! ## Replay-completion watcher (spec §4.2)

The watcher is described by the design document but its code is not among
the server sources; the definitions below are modelled from the spec. -/

/-- Modelled from the spec: watcher timing configuration — poll interval
(default 500 ms), completion buffer delay (default 500 ms), maximum wait
(default 10 minutes). -/
structure WatcherCfg where
  pollMs : Nat
  bufferMs : Nat
  maxWaitMs : Nat
deriving DecidableEq, Repr

/-- The spec's default watcher timings. -/
def defaultWatcherCfg : WatcherCfg := ⟨500, 500, 600000⟩

/-- Modelled from the spec: the outcome of one status poll — the tri-state
playing signal, or a fetch failure. -/
inductive PollResult where
  | playingTrue
  | playingFalse
  | unknownSignal
  | fetchFailure
deriving DecidableEq, Repr

/-- Modelled from the spec: an observable effect of a watcher tick —
scheduling the next poll, scheduling the single follow-up transition call
after the buffer delay, or stopping on timeout. -/
inductive WatcherEffect where
  | schedulePoll (delayMs : Nat)
  | scheduleTransition (delayMs : Nat)
  | timeoutStop
deriving DecidableEq, Repr

/-- Modelled from the spec: the replay-completion watcher (missing from the
server sources), processing a sequence of poll results for an uncancelled
watcher.  Each tick: stop on timeout; a fetch failure or an unknown signal
just reschedules; `playing == true` sets `sawPlayback` and reschedules;
`playing == false` with `sawPlayback` already true is the completion edge —
schedule one transition call after the buffer delay and poll no further;
`playing == false` before any playback was seen just reschedules. -/
def watcherProcessPolls (cfg : WatcherCfg) (sawPlayback : Bool) (elapsedMs : Nat) :
    List PollResult → List WatcherEffect
  | [] => []
  | p :: rest =>
    if elapsedMs > cfg.maxWaitMs then [WatcherEffect.timeoutStop]
    else
      match p with
      | PollResult.fetchFailure =>
        WatcherEffect.schedulePoll cfg.pollMs
          :: watcherProcessPolls cfg sawPlayback (elapsedMs + cfg.pollMs) rest
      | PollResult.unknownSignal =>
        WatcherEffect.schedulePoll cfg.pollMs
          :: watcherProcessPolls cfg sawPlayback (elapsedMs + cfg.pollMs) rest
      | PollResult.playingTrue =>
        WatcherEffect.schedulePoll cfg.pollMs
          :: watcherProcessPolls cfg true (elapsedMs + cfg.pollMs) rest
      | PollResult.playingFalse =>
        if sawPlayback then [WatcherEffect.scheduleTransition cfg.bufferMs]
        else
          WatcherEffect.schedulePoll cfg.pollMs
            :: watcherProcessPolls cfg false (elapsedMs + cfg.pollMs) rest

/-- Whether an effect is the scheduling of the follow-up transition call. -/
def WatcherEffect.isTransition : WatcherEffect → Bool
  | WatcherEffect.scheduleTransition _ => true
  | _ => false

/-- Number of follow-up transition calls scheduled in an effect trace. -/
def countTransitions (l : List WatcherEffect) : Nat :=
  (l.filter WatcherEffect.isTransition).length

/-! ## Status parser (spec §4.1)

Also absent from the server sources; modelled from the spec. -/

/-- Modelled from the spec: a duration field value in a status document — a
decimal number, a piece of text (timecode or garbage), or something else. -/
inductive FieldVal where
  | num (q : ℚ)
  | text (s : String)
  | otherVal
deriving DecidableEq, Repr

/-- Modelled from the spec: the candidate duration field names the parser
probes, in order (representative names; the spec only says "several
candidate field names"). -/
def DURATION_CANDIDATES : List String :=
  ["remaining", "remainingMs", "duration", "durationMs", "length"]

/-- Modelled from the spec: a `HH:MM:SS[.fff]` timecode parsed to
milliseconds; malformed input gives `none`. -/
def parseTimecode (s : String) : Option ℚ :=
  match s.splitOn ":" with
  | [hh, mm, ss] =>
    match hh.toNat?, mm.toNat?, parseDecimal ss.data with
    | some h, some m, some sec =>
      some ((((h * 3600 + m * 60 : ℕ) : ℚ) + sec) * 1000)
    | _, _, _ => none
  | _ => none

/-- Modelled from the spec: interpret one duration field value — a number
`v ≤ 1000` is seconds (`v * 1000`), a number `v > 1000` is milliseconds
(`round v`), text is tried as a timecode, anything else is null. -/
def parseDurationValue : FieldVal → Option ℚ
  | FieldVal.num v => some (if v ≤ 1000 then v * 1000 else ((round v : ℤ) : ℚ))
  | FieldVal.text s => parseTimecode s
  | FieldVal.otherVal => none

/-- Modelled from the spec: the first candidate field present in the
document (first matching candidate wins). -/
def findDuration (doc : List (String × FieldVal)) : Option FieldVal :=
  DURATION_CANDIDATES.findSome? (fun name => doc.lookup name)

/-- Modelled from the spec: `parseRemainingMs(doc)` — the first candidate
duration field, interpreted; absent or malformed gives null. -/
def parseRemainingMs (doc : List (String × FieldVal)) : Option ℚ :=
  (findDuration doc).bind parseDurationValue

/-! ## Helper lemmas -/

/-- The label-setting call always appears in a `markHighlight` trace. -/
theorem setText_mem_markHighlight (cfg : Cfg) (seconds : ℚ) (side tag camsMode : String)
    (cb : Bool) :
    Call.replaySetLastEventText (side ++ " • " ++ tag)
      ∈ markHighlightCalls cfg seconds side tag camsMode cb := by
  simp only [markHighlightCalls]
  split <;> simp [setLastEventCameras]

/-! ## Claims -/

/-- C1: processing the poll sequence [unknown, true, true, false] makes the
watcher schedule exactly one follow-up transition call, after the 500 ms
buffer delay, as its final effect right after the last `false`; the sequence
[false, false] (playback never observed) schedules no transition call.
(Watcher modelled from the spec; absent from the server sources.) -/
theorem watcher_edge_detection :
    watcherProcessPolls defaultWatcherCfg false 0
        [PollResult.unknownSignal, PollResult.playingTrue, PollResult.playingTrue,
         PollResult.playingFalse]
      = [WatcherEffect.schedulePoll 500, WatcherEffect.schedulePoll 500,
         WatcherEffect.schedulePoll 500, WatcherEffect.scheduleTransition 500]
  ∧ countTransitions (watcherProcessPolls defaultWatcherCfg false 0
        [PollResult.unknownSignal, PollResult.playingTrue, PollResult.playingTrue,
         PollResult.playingFalse]) = 1
  ∧ countTransitions (watcherProcessPolls defaultWatcherCfg false 0
        [PollResult.unknownSignal, PollResult.playingTrue, PollResult.playingTrue]) = 0
  ∧ watcherProcessPolls defaultWatcherCfg false 0
        [PollResult.playingFalse, PollResult.playingFalse]
      = [WatcherEffect.schedulePoll 500, WatcherEffect.schedulePoll 500] := by
  decide

/-- C2 counterexample: the `POST /api/reel/play` handler never starts a
replay-completion watcher — the claimed third step does not exist in the
code. -/
theorem playReel_claim_counterexample :
    ReelEff.startWatcher ∉ playReelEffs defaultCfg := by
  decide

/-- C2 (amended): the reel-play handler performs exactly, in order, one
device call selecting the designated reel list and one "play all events to
output" device call; it starts no watcher. -/
theorem playReel_call_sequence (cfg : Cfg) :
    playReelEffs cfg
      = [ReelEff.device (Call.replaySelectEvents cfg.reelPlayList "A"),
         ReelEff.device (Call.replayPlayAllEventsToOutput "B")]
  ∧ ReelEff.startWatcher ∉ playReelEffs cfg := by
  refine ⟨rfl, ?_⟩
  simp [playReelEffs]

/-- C8 counterexample: the `POST /api/reel/stop` handler performs no watcher
cancellation — there is no watcher in the code to cancel. -/
theorem stopReel_claim_counterexample :
    ReelEff.cancelWatcher ∉ stopReelEffs := by
  decide

/-- C8 (amended): the reel-stop handler issues exactly one "stop output"
device call and cancels no watcher. -/
theorem stopReel_call_sequence :
    stopReelEffs = [ReelEff.device (Call.replayStop "B")]
  ∧ ReelEff.cancelWatcher ∉ stopReelEffs := by
  refine ⟨rfl, ?_⟩
  simp [stopReelEffs]

/-- C5: when the first matching duration candidate in a status document is
the number `v`, `parseRemainingMs` yields `v * 1000` when `v ≤ 1000`
(seconds) and `round v` when `v > 1000` (milliseconds).  (Parser modelled
from the spec; absent from the server sources.) -/
theorem parseRemainingMs_numeric (doc : List (String × FieldVal)) (v : ℚ)
    (h : findDuration doc = some (FieldVal.num v)) :
    (v ≤ 1000 → parseRemainingMs doc = some (v * 1000))
  ∧ (1000 < v → parseRemainingMs doc = some ((round v : ℤ) : ℚ)) := by
  unfold parseRemainingMs
  rw [h]
  constructor <;> intro hv
  · simp [parseDurationValue, hv]
  · simp [parseDurationValue, not_le.mpr hv]

/-- C5 witness: a document whose `remaining` field holds 12 parses to
12000 ms. -/
theorem parseRemainingMs_numeric_witness :
    (12 : ℚ) ≤ 1000 ∧ parseRemainingMs [("remaining", FieldVal.num 12)] = some (12 * 1000) :=
  ⟨by norm_num,
   (parseRemainingMs_numeric [("remaining", FieldVal.num 12)] 12 (by decide)).1 (by norm_num)⟩

/-- C3 counterexample: with the default configuration (distinct primary and
secondary lists) and the high-value tag "TD", `markHighlight` issues 12
device calls, not the claimed 9 — each camera step is two calls (primary
camera on, secondary camera on or off). -/
theorem markHighlight_nine_calls_counterexample :
    (markHighlightCalls defaultCfg 7 "H" "TD" "A_BOTH" true).length ≠ 9 := by
  decide

/-- C3 (amended): with distinct primary/secondary lists and a high-value tag
the trace is exactly select-primary, mark, camera pair (primary on,
secondary on/off), label, select-secondary, mark, camera pair, label,
select-primary, label — 12 calls; with a non-high-value tag only the first
5 calls (select, mark, camera pair, label) occur. -/
theorem markHighlight_call_order (cfg : Cfg) (seconds : ℚ) (side tag camsMode : String)
    (camBEnabled : Bool) (hlists : cfg.duplicateHighlightsList ≠ cfg.highlightsList) :
    (tag ∈ DUPLICATE_TAGS →
      markHighlightCalls cfg seconds side tag camsMode camBEnabled
        = [Call.replaySelectEvents cfg.highlightsList "A",
           Call.replayMarkInOut seconds,
           Call.replayLastEventCameraOn cfg.camA,
           (if (camsMode == "A_BOTH") && camBEnabled then Call.replayLastEventCameraOn cfg.camB
            else Call.replayLastEventCameraOff cfg.camB),
           Call.replaySetLastEventText (side ++ " • " ++ tag),
           Call.replaySelectEvents cfg.duplicateHighlightsList "A",
           Call.replayMarkInOut seconds,
           Call.replayLastEventCameraOn cfg.camA,
           (if (camsMode == "A_BOTH") && camBEnabled then Call.replayLastEventCameraOn cfg.camB
            else Call.replayLastEventCameraOff cfg.camB),
           Call.replaySetLastEventText (side ++ " • " ++ tag),
           Call.replaySelectEvents cfg.highlightsList "A",
           Call.replaySetLastEventText (side ++ " • " ++ tag)]
      ∧ (markHighlightCalls cfg seconds side tag camsMode camBEnabled).length = 12)
  ∧ (tag ∉ DUPLICATE_TAGS →
      markHighlightCalls cfg seconds side tag camsMode camBEnabled
        = [Call.replaySelectEvents cfg.highlightsList "A",
           Call.replayMarkInOut seconds,
           Call.replayLastEventCameraOn cfg.camA,
           (if (camsMode == "A_BOTH") && camBEnabled then Call.replayLastEventCameraOn cfg.camB
            else Call.replayLastEventCameraOff cfg.camB),
           Call.replaySetLastEventText (side ++ " • " ++ tag)]
      ∧ (markHighlightCalls cfg seconds side tag camsMode camBEnabled).length = 5) := by
  have hne : (cfg.duplicateHighlightsList == cfg.highlightsList) = false := by
    simpa using hlists
  constructor <;> intro hc <;>
    cases h : (camsMode == "A_BOTH") && camBEnabled <;>
      simp [markHighlightCalls, setLastEventCameras, hc, hne, h]

/-- C3 witness: the amended order at a concrete high-value request. -/
theorem markHighlight_call_order_witness :
    defaultCfg.duplicateHighlightsList ≠ defaultCfg.highlightsList
  ∧ (markHighlightCalls defaultCfg 7 "H" "TD" "A_BOTH" true).length = 12 :=
  ⟨by decide,
   ((markHighlight_call_order defaultCfg 7 "H" "TD" "A_BOTH" true (by decide)).1 (by decide)).2⟩

/-- C4: any highlight request failing the seconds / side / tag / camsMode
validations is answered with an error envelope and issues no device call. -/
theorem highlight_validation_rejects (cfg : Cfg) (b : HighlightBody)
    (h : secondsValid b.seconds = false ∨ sideValid b.side = false ∨ tagValid b.tag = false
       ∨ camsModeValid b.camsMode = false) :
    ((highlightHandler cfg b).1).isOk = false ∧ (highlightHandler cfg b).2 = [] := by
  cases h1 : secondsValid b.seconds <;> cases h2 : sideValid b.side <;>
    cases h3 : tagValid b.tag <;> cases h4 : camsModeValid b.camsMode <;>
    simp_all [highlightHandler, HResp.isOk]

/-- C4 witness: `seconds = 6` is rejected without device calls. -/
theorem highlight_validation_rejects_witness :
    secondsValid (JVal.num 6) = false
  ∧ ((highlightHandler defaultCfg
        ⟨JVal.num 6, JVal.str "H", JVal.str "TD", JVal.str "A_ONLY", JVal.bool true⟩).1).isOk = false
  ∧ (highlightHandler defaultCfg
        ⟨JVal.num 6, JVal.str "H", JVal.str "TD", JVal.str "A_ONLY", JVal.bool true⟩).2 = [] :=
  ⟨by decide,
   (highlight_validation_rejects defaultCfg
     ⟨JVal.num 6, JVal.str "H", JVal.str "TD", JVal.str "A_ONLY", JVal.bool true⟩
     (Or.inl (by decide))).1,
   (highlight_validation_rejects defaultCfg
     ⟨JVal.num 6, JVal.str "H", JVal.str "TD", JVal.str "A_ONLY", JVal.bool true⟩
     (Or.inl (by decide))).2⟩

/-- C6: the secondary-list duplication suffix is appended exactly when the
tag is high-value and the configured duplicate list differs from the
primary; the suffix ends by re-selecting the primary list and re-applying
the label. -/
theorem markHighlight_duplication_iff (cfg : Cfg) (seconds : ℚ) (side tag camsMode : String)
    (camBEnabled : Bool) :
    markHighlightCalls cfg seconds side tag camsMode camBEnabled
      = ([Call.replaySelectEvents cfg.highlightsList "A", Call.replayMarkInOut seconds]
          ++ setLastEventCameras cfg.camA cfg.camB true ((camsMode == "A_BOTH") && camBEnabled)
          ++ [Call.replaySetLastEventText (side ++ " • " ++ tag)])
        ++ (if tag ∈ DUPLICATE_TAGS ∧ cfg.duplicateHighlightsList ≠ cfg.highlightsList then
              [Call.replaySelectEvents cfg.duplicateHighlightsList "A",
               Call.replayMarkInOut seconds]
              ++ setLastEventCameras cfg.camA cfg.camB true ((camsMode == "A_BOTH") && camBEnabled)
              ++ [Call.replaySetLastEventText (side ++ " • " ++ tag),
                  Call.replaySelectEvents cfg.highlightsList "A",
                  Call.replaySetLastEventText (side ++ " • " ++ tag)]
            else []) := by
  rcases eq_or_ne cfg.duplicateHighlightsList cfg.highlightsList with hd | hd <;>
    by_cases hc : tag ∈ DUPLICATE_TAGS <;>
      simp [markHighlightCalls, hc, hd]

/-- C7: the primary camera is turned on in every `markHighlight` trace, and
the secondary camera is turned on exactly when `camsMode` requests both
cameras and the secondary camera is enabled. -/
theorem markHighlight_camera_rule (cfg : Cfg) (seconds : ℚ) (side tag camsMode : String)
    (camBEnabled : Bool) (hAB : cfg.camA ≠ cfg.camB) :
    Call.replayLastEventCameraOn cfg.camA
      ∈ markHighlightCalls cfg seconds side tag camsMode camBEnabled
  ∧ (Call.replayLastEventCameraOn cfg.camB
        ∈ markHighlightCalls cfg seconds side tag camsMode camBEnabled
      ↔ (camsMode = "A_BOTH" ∧ camBEnabled = true)) := by
  cases hcm : camsMode == "A_BOTH" <;> cases camBEnabled <;>
    cases hc : DUPLICATE_TAGS.contains tag <;>
    cases hd : cfg.duplicateHighlightsList == cfg.highlightsList <;>
    simp_all [markHighlightCalls, setLastEventCameras, hAB, Ne.symm hAB]

/-- C7 witness: camera facts at a concrete request. -/
theorem markHighlight_camera_rule_witness :
    defaultCfg.camA ≠ defaultCfg.camB
  ∧ Call.replayLastEventCameraOn defaultCfg.camA
      ∈ markHighlightCalls defaultCfg 5 "H" "HIT" "A_BOTH" true :=
  ⟨by decide, (markHighlight_camera_rule defaultCfg 5 "H" "HIT" "A_BOTH" true (by decide)).1⟩

/-- C9: when `saveVmixHostConfig` throws, the config handler answers with a
500 error envelope and leaves the in-memory host unchanged; the host can
change only when the write succeeded. -/
theorem configVmix_state_unchanged_on_error (curHost : String) (body : JVal) (msg : String)
    (h : normalizeHost body ≠ "") :
    configVmixHandler curHost body (Except.error msg)
      = (curHost, ⟨500, false, some msg, none⟩)
  ∧ ∀ w : Except String Unit,
      (configVmixHandler curHost body w).1 = curHost ∨ w = Except.ok () := by
  constructor
  · simp [configVmixHandler, h]
  · intro w
    cases w with
    | ok u => exact Or.inr rfl
    | error m =>
      left
      rcases eq_or_ne (normalizeHost body) "" with h0 | h0 <;> simp [configVmixHandler, h0]

/-- C9 witness: a failed write at a concrete request leaves the host as it
was and yields the 500 envelope. -/
theorem configVmix_state_unchanged_on_error_witness :
    normalizeHost (JVal.str "10.0.0.5") ≠ ""
  ∧ configVmixHandler "VMIX-PC" (JVal.str "10.0.0.5") (Except.error "disk full")
      = ("VMIX-PC", ⟨500, false, some "disk full", none⟩) :=
  ⟨by decide,
   (configVmix_state_unchanged_on_error "VMIX-PC" (JVal.str "10.0.0.5") "disk full"
     (by decide)).1⟩

/-- C10: a numeric-string `seconds` in \x7b5,7,10\x7d and a tag with
surrounding whitespace pass validation; `markHighlight` receives the
`Number`-coerced seconds and the trimmed tag, and the label call carries
`side ++ " • " ++ tag.trim`. -/
theorem highlight_coercion_accepts (cfg : Cfg) (s : String) (q : ℚ) (side t cm : String)
    (cb : Bool) (hs : jsParseNumber s = some q) (hq : q = 5 ∨ q = 7 ∨ q = 10)
    (hside : side = "H" ∨ side = "A") (ht : ¬ jsTrim t = "")
    (hcm : cm = "A_ONLY" ∨ cm = "A_BOTH") :
    highlightHandler cfg ⟨JVal.str s, JVal.str side, JVal.str t, JVal.str cm, JVal.bool cb⟩
      = (HResp.ok, markHighlightCalls cfg q side (jsTrim t) cm cb)
  ∧ Call.replaySetLastEventText (side ++ " • " ++ jsTrim t)
      ∈ (highlightHandler cfg
          ⟨JVal.str s, JVal.str side, JVal.str t, JVal.str cm, JVal.bool cb⟩).2 := by
  have h1 : secondsValid (JVal.str s) = true := by
    simp [secondsValid, jsToNumber, hs, hq]
  have h2 : sideValid (JVal.str side) = true := by
    rcases hside with rfl | rfl <;> rfl
  have h3 : tagValid (JVal.str t) = true := by
    simp [tagValid, ht]
  have h4 : camsModeValid (JVal.str cm) = true := by
    rcases hcm with rfl | rfl <;> rfl
  have hEq : highlightHandler cfg
      ⟨JVal.str s, JVal.str side, JVal.str t, JVal.str cm, JVal.bool cb⟩
      = (HResp.ok, markHighlightCalls cfg q side (jsTrim t) cm cb) := by
    simp [highlightHandler, camBDefaulted, camBEnabledValid, h1, h2, h3, h4,
      jsToNumber, hs, jsStr, jsBool]
  refine ⟨hEq, ?_⟩
  rw [hEq]
  exact setText_mem_markHighlight cfg q side (jsTrim t) cm cb

/-- C10 witness: `seconds = "5"` and `tag = "  TD  "` are accepted and the
label is `"H • TD"`. -/
theorem highlight_coercion_accepts_witness :
    jsParseNumber "5" = some 5
  ∧ jsTrim "  TD  " = "TD"
  ∧ highlightHandler defaultCfg
        ⟨JVal.str "5", JVal.str "H", JVal.str "  TD  ", JVal.str "A_ONLY", JVal.bool true⟩
      = (HResp.ok, markHighlightCalls defaultCfg 5 "H" (jsTrim "  TD  ") "A_ONLY" true) :=
  ⟨by decide, by decide,
   (highlight_coercion_accepts defaultCfg "5" 5 "H" "  TD  " "A_ONLY" true (by decide)
     (Or.inl rfl) (Or.inl rfl) (by decide) (Or.inl rfl)).1⟩

end VmixBridge
